import Mathlib

/-!
Shallow embedding of the agent-orchestration core of the `ai-multichat`
repository (`src/ai-chatbot-aggregator`): the error classifier and retry
predicate (`src/ai/base.ts`, `src/utils/retry.ts`), the retry executor
(`withRetry`), the fallback element resolver (`BaseChatBot.findElement`),
the per-agent submission pipeline (`BaseChatBot.sendPrompt`), and the
fan-out/fan-in orchestrator (`AIManager.sendPromptToAll`).

Asynchronous effects are embedded by explicit parameterisation: the
outcome of each driver interaction (element appearance times, per-attempt
extraction results, per-agent initialization and prompt outcomes) is an
input to the Lean function, and wall-clock delays are tracked as explicit
rational schedules.  Fields whose value is a wall-clock timestamp
(`timestamp`, `responseTime`, the aggregate `totalDuration`) are set to 0
in the value-level model; the duration arithmetic of `sendPromptToAll` is
modelled separately by `sendPromptToAllDurationM`.
-/

namespace AiMultichat

/-! ## String matching (JS `String.prototype.includes` and regex tests) -/

/-- `containsSub pat s` is true iff the character list `pat` occurs as a
contiguous sublist of `s`.  This is JS `s.includes(pat)` on the underlying
character sequences. -/
def containsSub (pat : List Char) : List Char → Bool
  | [] => pat.isEmpty
  | c :: rest => pat.isPrefixOf (c :: rest) || containsSub pat rest

/-- JS `s.includes(pat)` (case-sensitive substring test). -/
def strIncludes (s pat : String) : Bool :=
  containsSub pat.data s.data

/-- Case-insensitive substring test, modelling a `/pat/i` regex test for a
literal pattern. -/
def strIncludesCI (s pat : String) : Bool :=
  containsSub (pat.data.map Char.toLower) (s.data.map Char.toLower)

/-- JS `s.trim()`: strip leading and trailing whitespace. -/
def strTrim (s : String) : String :=
  ⟨((s.data.dropWhile Char.isWhitespace).reverse.dropWhile Char.isWhitespace).reverse⟩

/-! ## Error model (`src/types/index.ts`, `src/ai/base.ts`) -/

/-- A raw JS `Error` value: `message`, `name` and optional `stack`. -/
structure JsError where
  message : String
  name : String := "Error"
  stack : Option String := none
deriving DecidableEq

/-- `ChatBotError['type']` from `src/types/index.ts`. -/
inductive ErrorType where
  | NETWORK_ERROR
  | SELECTOR_NOT_FOUND
  | TIMEOUT_ERROR
  | SESSION_INVALID
  | UNKNOWN_ERROR
deriving DecidableEq

/-- `ChatBotError` from `src/types/index.ts`. -/
structure ChatBotError where
  type : ErrorType
  message : String
  details : Option String
  recoverable : Bool
deriving DecidableEq

/-- `BaseChatBot.createError` (`src/ai/base.ts`):
`recoverable := type !== 'SESSION_INVALID'`. -/
def createError (type : ErrorType) (message : String) (details : Option String) :
    ChatBotError :=
  { type := type, message := message, details := details,
    recoverable := decide (type ≠ ErrorType.SESSION_INVALID) }

/-- `BaseChatBot._mapErrorToChatBotError` (`src/ai/base.ts`): ordered
case-sensitive `includes` checks on the raw error message. -/
def mapErrorToChatBotError (e : JsError) : ChatBotError :=
  if strIncludes e.message "timeout" then
    createError ErrorType.TIMEOUT_ERROR "Request timed out" (some e.message)
  else if strIncludes e.message "selector" || strIncludes e.message "not found" then
    createError ErrorType.SELECTOR_NOT_FOUND "UI element not found" (some e.message)
  else if strIncludes e.message "network" || strIncludes e.message "connection" then
    createError ErrorType.NETWORK_ERROR "Network connectivity issue" (some e.message)
  else if strIncludes e.message "session" || strIncludes e.message "login" then
    createError ErrorType.SESSION_INVALID "Session expired or invalid" (some e.message)
  else
    createError ErrorType.UNKNOWN_ERROR e.message e.stack

/-- The retryable patterns of `isRetryableError` (`src/utils/retry.ts`);
the boolean records whether the regex has the `i` flag. -/
def retryablePatterns : List (Bool × String) :=
  [(true, "timeout"), (true, "network"), (true, "connection"),
   (false, "ECONNRESET"), (false, "ENOTFOUND"), (false, "ETIMEDOUT"),
   (false, "502"), (false, "503"), (false, "504")]

/-- One `pattern.test (error.message) || pattern.test (error.name)` step. -/
def patternHits (e : JsError) (p : Bool × String) : Bool :=
  if p.1 then strIncludesCI e.message p.2 || strIncludesCI e.name p.2
  else strIncludes e.message p.2 || strIncludes e.name p.2

/-- `isRetryableError` (`src/utils/retry.ts`): some retryable pattern
matches the error's message or name. -/
def isRetryableError (e : JsError) : Bool :=
  retryablePatterns.any (patternHits e)

/-! ## Retry executor (`withRetry`, `src/utils/retry.ts`)

The JS loop is embedded as a fuel recursion: `fuel` is the number of
retries still allowed (`maxRetries - attempt`), `attempt` the 0-based
index of the attempt about to run, `cur` the wait that would precede the
next retry (`currentDelay`), and `waits` the accumulated list of waits
already performed (one entry per attempt after attempt 0).  The result
carries the surfaced value or error together with the wait schedule and
the number of attempts actually made. -/

/-- `currentDelay = Math.min(currentDelay * backoffMultiplier, maxDelay)`. -/
def nextDelay (bm maxDelay cur : Rat) : Rat :=
  min (cur * bm) maxDelay

/-- The retry loop of `withRetry`.  `op k` is the outcome of the `k`-th
attempt of the wrapped operation, `cond` is `retryCondition`. -/
def withRetryGo (op : Nat → Except JsError α) (cond : JsError → Bool)
    (bm maxDelay : Rat) :
    Nat → Nat → Rat → List Rat → Except JsError α × List Rat × Nat
  | 0, attempt, _cur, waits =>
    match op attempt with
    | .ok v => (.ok v, waits, attempt + 1)
    | .error e => (.error e, waits, attempt + 1)
  | f + 1, attempt, cur, waits =>
    match op attempt with
    | .ok v => (.ok v, waits, attempt + 1)
    | .error e =>
      if cond e then
        withRetryGo op cond bm maxDelay f (attempt + 1)
          (nextDelay bm maxDelay cur) (waits ++ [cur])
      else (.error e, waits, attempt + 1)

/-- `withRetry(operation, {maxRetries, delay, backoffMultiplier, maxDelay,
retryCondition})`, instrumented to also return the wait schedule (the
delay taken before each attempt after attempt 0, in order) and the number
of attempts made. -/
def withRetryRun (op : Nat → Except JsError α) (cond : JsError → Bool)
    (maxRetries : Nat) (delay bm maxDelay : Rat) :
    Except JsError α × List Rat × Nat :=
  withRetryGo op cond bm maxDelay maxRetries 0 delay []

/-- The sequence of `currentDelay` values produced by iterating
`nextDelay` from a starting delay: `delayIter bm md cur k` is the wait
preceding attempt `k + 1` when the loop starts with `currentDelay = cur`. -/
def delayIter (bm maxDelay : Rat) : Rat → Nat → Rat
  | cur, 0 => cur
  | cur, k + 1 => delayIter bm maxDelay (nextDelay bm maxDelay cur) k

/-- `CONFIG.APP.MAX_RETRIES`. -/
def MAX_RETRIES : Nat := 3

/-- `CONFIG.APP.RETRY_DELAY`. -/
def RETRY_DELAY : Rat := 1000

/-! ## Element resolver (`BaseChatBot.findElement`, `src/ai/base.ts`)

`env sel` gives the time at which the element matched by `sel` becomes
available (`none` = never); a `waitForSelector(sel, {timeout: share})`
probe succeeds iff that time is within the share, taking that long, and
otherwise consumes its whole share. -/

/-- The probe loop of `findElement`: try each selector with budget
`share`, threading elapsed time. -/
def findElementGo (env : String → Option Rat) (share : Rat) :
    List String → Rat → Option String × Rat
  | [], elapsed => (none, elapsed)
  | s :: rest, elapsed =>
    match env s with
    | some t =>
      if t ≤ share then (some s, elapsed + t)
      else findElementGo env share rest (elapsed + share)
    | none => findElementGo env share rest (elapsed + share)

/-- `BaseChatBot.findElement(selectors, timeout)`: probes each selector in
order with `timeout / selectors.length`, returning the first that
resolves, or the `None of the selectors found` error with the joined
selector list.  Also returns the elapsed time. -/
def findElement (env : String → Option Rat) (selectors : List String)
    (timeout : Rat) : Except String String × Rat :=
  match findElementGo env (timeout / (selectors.length : Rat)) selectors 0 with
  | (some s, elapsed) => (.ok s, elapsed)
  | (none, elapsed) =>
    (.error ("None of the selectors found: " ++ String.intercalate ", " selectors),
     elapsed)

/-- The first selector whose element appears within the given share
(specification-side reading of the resolver's success case). -/
def firstResolving (env : String → Option Rat) (share : Rat)
    (selectors : List String) : Option String :=
  selectors.find? fun s =>
    match env s with
    | some t => decide (t ≤ share)
    | none => false

/-! ## Per-agent submission (`BaseChatBot.sendPrompt`, `src/ai/base.ts`) -/

/-- Result status of `ChatBotResponse` (`src/types/index.ts`). -/
inductive Status where
  | pending
  | success
  | error
deriving DecidableEq

/-- `ChatBotResponse.metadata` (`src/types/index.ts`). -/
structure ResponseMetadata where
  responseTime : Nat
  retryCount : Nat
  sessionValid : Bool
deriving DecidableEq

/-- `ChatBotResponse` (`src/types/index.ts`). -/
structure ChatBotResponse where
  id : String
  name : String
  response : String
  status : Status
  error : Option ChatBotError
  timestamp : Nat
  metadata : Option ResponseMetadata
deriving DecidableEq

/-- The identity of one chatbot (`id` and display `name` from
`CONFIG.CHATBOTS`). -/
structure Agent where
  id : String
  name : String
deriving DecidableEq

/-- `BaseChatBot._sendPromptInternal`: the driver steps up to and
including `waitForResponse` for one attempt are summarised by `attempt`
(`.ok s` = the attempt extracted the text `s`); an empty or
whitespace-only extraction is turned into the `Empty response received`
failure. -/
def sendPromptInternalM (attempt : Except JsError String) : Except JsError String :=
  match attempt with
  | .error e => .error e
  | .ok response =>
    if response == "" || strTrim response == "" then
      .error { message := "Empty response received" }
    else .ok response

/-- `BaseChatBot.sendPrompt(prompt)`: wraps the internal submission in
`withRetry` with `maxRetries` and `retryCondition: isRetryableError`, and
builds the success or error `ChatBotResponse`.  `attempts k` is the
outcome of the `k`-th internal attempt before the empty-response check.
`this.retryCount` is incremented at the start of every attempt, so the
reported `retryCount` is the number of attempts made.  Wall-clock fields
are abstracted to 0. -/
def sendPromptRun (attempts : Nat → Except JsError String) (maxRetries : Nat) :
    Except JsError String × List Rat × Nat :=
  withRetryRun (fun k => sendPromptInternalM (attempts k))
    isRetryableError maxRetries RETRY_DELAY (3 / 2) 10000

/-- Builds the success or error `ChatBotResponse` of `sendPrompt` from
the surfaced result of its retry run (see `sendPromptRun`). -/
def sendPromptM (a : Agent) (attempts : Nat → Except JsError String)
    (maxRetries : Nat) : ChatBotResponse :=
  let run := sendPromptRun attempts maxRetries
  match run.1 with
  | .ok response =>
    { id := a.id, name := a.name, response := response, status := Status.success,
      error := none, timestamp := 0,
      metadata := some { responseTime := 0, retryCount := run.2.2, sessionValid := true } }
  | .error e =>
    let cbe := mapErrorToChatBotError e
    let md : ResponseMetadata :=
      { responseTime := 0, retryCount := run.2.2,
        sessionValid := decide (cbe.type ≠ ErrorType.SESSION_INVALID) }
    { id := a.id, name := a.name, response := "", status := Status.error,
      error := some cbe, timestamp := 0, metadata := some md }

/-! ## Orchestrator (`AIManager.sendPromptToAll`, `src/ai/manager.ts`) -/

/-- The settlement of one `chatbot.sendPrompt(prompt)` promise, as seen by
`Promise.allSettled` in the manager. -/
inductive SettledResult where
  | fulfilled (r : ChatBotResponse)
  | rejected (e : JsError)

/-- The error outcome the manager builds for a rejected prompt promise
(`UNKNOWN_ERROR`, `reason?.message || 'Unknown error'`). -/
def rejectedOutcome (a : Agent) (e : JsError) : ChatBotResponse :=
  let err : ChatBotError :=
    { type := ErrorType.UNKNOWN_ERROR,
      message := if e.message == "" then "Unknown error" else e.message,
      details := e.stack, recoverable := true }
  { id := a.id, name := a.name, response := "", status := Status.error,
    error := some err, timestamp := 0,
    metadata := some { responseTime := 0, retryCount := 0, sessionValid := false } }

/-- The error outcome the manager pushes for a chatbot whose
initialization promise was rejected (`NETWORK_ERROR`,
`'Failed to initialize'`, details = rejection reason's message). -/
def initFailOutcome (a : Agent) (reason : Option String) : ChatBotResponse :=
  let err : ChatBotError :=
    { type := ErrorType.NETWORK_ERROR, message := "Failed to initialize",
      details := reason, recoverable := true }
  { id := a.id, name := a.name, response := "", status := Status.error,
    error := some err, timestamp := 0,
    metadata := some { responseTime := 0, retryCount := 0, sessionValid := false } }

/-- The outcome the manager records for one successfully initialized
agent: the fulfilled `sendPrompt` value, or the `rejectedOutcome` built
from the rejection reason. -/
def promptOutcomeOf (promptRes : Agent → SettledResult) (a : Agent) : ChatBotResponse :=
  match promptRes a with
  | .fulfilled r => r
  | .rejected e => rejectedOutcome a e

/-- The outcome the manager pushes for one agent whose initialization
failed. -/
def initFailOutcomeOf (initRes : Agent → Except JsError Unit) (a : Agent) : ChatBotResponse :=
  initFailOutcome a (match initRes a with
    | .error e => some e.message
    | .ok _ => none)

/-- `true` iff the initialization of this agent settled fulfilled. -/
def initOkB (initRes : Agent → Except JsError Unit) (a : Agent) : Bool :=
  match initRes a with
  | .ok _ => true
  | .error _ => false

/-- `selectedChatbots`: the registry filtered to the requested ids, in
registry order (`Array.from(this.chatbots.entries()).filter(...)`). -/
def selectedOf (registry : List Agent) (requested : List String) : List Agent :=
  registry.filter fun a => requested.contains a.id

/-- `PromptResponse.metadata` (`src/types/index.ts`). -/
structure PromptResponseMetadata where
  totalDuration : Nat
  successCount : Nat
  errorCount : Nat
deriving DecidableEq

/-- `PromptResponse` (`src/types/index.ts`). -/
structure PromptResponse where
  results : List ChatBotResponse
  timestamp : Nat
  metadata : PromptResponseMetadata
deriving DecidableEq

/-- `AIManager.sendPromptToAll(request)`.  `registry` is the constructor's
chatbot map in insertion order, `requested` is `request.chatbots`,
`initRes a` the settlement of agent `a`'s retried initialization, and
`promptRes a` the settlement of `a.sendPrompt(prompt)`.  Thrown errors
are modelled as `.error` with the thrown message; wall-clock fields are
abstracted to 0 (see `sendPromptToAllDurationM` for the duration
arithmetic). -/
def sendPromptToAllM (registry : List Agent) (requested : List String)
    (initRes : Agent → Except JsError Unit)
    (promptRes : Agent → SettledResult) : Except String PromptResponse :=
  let selected := selectedOf registry requested
  if selected.isEmpty then .error "No valid chatbots selected"
  else
    let successfulChatbots := selected.filter (initOkB initRes)
    let failedInits := selected.filter fun a => !(initOkB initRes a)
    if successfulChatbots.isEmpty then .error "All chatbots failed to initialize"
    else
      let promptOutcomes := successfulChatbots.map (promptOutcomeOf promptRes)
      let initFailOutcomes := failedInits.map (initFailOutcomeOf initRes)
      let results := promptOutcomes ++ initFailOutcomes
      let md : PromptResponseMetadata :=
        { totalDuration := 0,
          successCount := (results.filter fun r => r.status == Status.success).length,
          errorCount := (results.filter fun r => r.status == Status.error).length }
      .ok { results := results, timestamp := 0, metadata := md }

/-- The chatbot registry built by the `AIManager` constructor, in map
insertion order, with display names from `CONFIG.CHATBOTS`. -/
def defaultRegistry : List Agent :=
  [{ id := "chatgpt", name := "ChatGPT" },
   { id := "claude", name := "Claude" },
   { id := "gemini", name := "Gemini" },
   { id := "perplexity", name := "Perplexity" }]

/-- The duration arithmetic of `sendPromptToAll`: `startTime = Date.now()`
is taken before the initialization fan-out, the `finally` block awaits all
`chatbot.close()` calls, and only then is
`totalDuration = Date.now() - startTime` computed.  `t0` is the clock at
entry and `dInit`, `dPrompt`, `dClose` the wall-clock extents of the
initialization, submission and cleanup phases. -/
def sendPromptToAllDurationM (t0 dInit dPrompt dClose : Nat) : Nat :=
  let startTime := t0
  let afterInit := startTime + dInit
  let afterPrompts := afterInit + dPrompt
  let afterClose := afterPrompts + dClose
  afterClose - startTime

/-- An outcome recording an initialization failure, as the manager builds
it: error status with the `NETWORK_ERROR` / `Failed to initialize`
classification. -/
def isInitFailureOutcome (r : ChatBotResponse) : Bool :=
  r.status == Status.error &&
    match r.error with
    | some e => e.type == ErrorType.NETWORK_ERROR && e.message == "Failed to initialize"
    | none => false

/-! ## Accessors and concrete scenario inputs used by the theorems -/

/-- The results list of a non-fatal run (`[]` for a fatal one). -/
def resultIds : Except String PromptResponse → List String
  | .ok resp => resp.results.map ChatBotResponse.id
  | .error _ => []

/-- The outcomes of a non-fatal run (`[]` for a fatal one). -/
def resultsOf : Except String PromptResponse → List ChatBotResponse
  | .ok resp => resp.results
  | .error _ => []

/-- Whether a run produced an aggregate result rather than a fatal error. -/
def isOkE : Except String PromptResponse → Bool
  | .ok _ => true
  | .error _ => false

/-- A transient network failure, as thrown by the driver. -/
def cNetErr : JsError := { message := "network down" }

/-- An operation that fails with a retryable error on every attempt. -/
def cAlwaysNetFail : Nat → Except JsError Unit := fun _ => .error cNetErr

/-- The Claude agent identity from the registry. -/
def cAgentClaude : Agent := { id := "claude", name := "Claude" }

/-- A stale-session failure, as thrown by the driver. -/
def cSessErr : JsError := { message := "session expired, please log in" }

/-- An operation that fails with a non-retryable error on every attempt. -/
def cAlwaysSessFail : Nat → Except JsError Unit := fun _ => .error cSessErr

/-- A page where only the selector `"C"` ever resolves, 50ms in. -/
def cEnvC : String → Option Rat := fun s => if s = "C" then some 50 else none

/-- Attempts that always extract a whitespace-only response. -/
def cAttemptsWs : Nat → Except JsError String := fun _ => .ok "   "

/-- Attempts that always extract `"hello"`. -/
def cAttemptsHello : Nat → Except JsError String := fun _ => .ok "hello"

/-- Attempts that fail retryably twice, then extract `"hi"`. -/
def cAttemptsThird : Nat → Except JsError String :=
  fun k => if k < 2 then .error cNetErr else .ok "hi"

/-- Initialization that rejects for `chatgpt` and fulfills for the rest. -/
def cInitFailChatgpt : Agent → Except JsError Unit :=
  fun a => if a.id == "chatgpt" then .error cNetErr else .ok ()

/-- Initialization that rejects for every agent. -/
def cInitFailAll : Agent → Except JsError Unit := fun _ => .error cNetErr

/-- Prompt promises that all reject. -/
def cPromptRejectedBoom : Agent → SettledResult := fun _ => .rejected { message := "boom" }

/-- Prompt promises that all fulfill with the agent's own `sendPrompt`
outcome on first-attempt success. -/
def cPromptFulfilled : Agent → SettledResult :=
  fun a => .fulfilled (sendPromptM a cAttemptsHello 3)

/-! ## C5: error classification -/

/-- C5 (corrected): the spec's example `"timed out after 30000ms"` does
not contain the literal substring `"timeout"`, so the classifier maps it
to `UNKNOWN_ERROR`, not `TIMEOUT_ERROR`. -/
theorem c5_timed_out_counterexample :
    (mapErrorToChatBotError { message := "timed out after 30000ms" }).type
      = ErrorType.UNKNOWN_ERROR ∧
    ErrorType.UNKNOWN_ERROR ≠ ErrorType.TIMEOUT_ERROR := by
  decide

/-- C5 (amended): classification is a pure function of the error text
applying ordered first-match substring checks — text containing
`"timeout"` maps to TIMEOUT; otherwise `"selector"` or `"not found"` to
LOCATOR_NOT_FOUND; otherwise `"network"` or `"connection"` to NETWORK;
otherwise `"session"` or `"login"` to SESSION_INVALID; otherwise UNKNOWN.
In particular `"connection refused"` maps to NETWORK,
`"selector not found: X"` to LOCATOR_NOT_FOUND,
`"session expired, please log in"` to SESSION_INVALID, and
`"timed out after 30000ms"` (which lacks the literal `"timeout"`) to
UNKNOWN. -/
theorem c5_error_classification :
    (∀ e : JsError, strIncludes e.message "timeout" = true →
      (mapErrorToChatBotError e).type = ErrorType.TIMEOUT_ERROR) ∧
    (∀ e : JsError, strIncludes e.message "timeout" = false →
      (strIncludes e.message "selector" || strIncludes e.message "not found") = true →
      (mapErrorToChatBotError e).type = ErrorType.SELECTOR_NOT_FOUND) ∧
    (∀ e : JsError, strIncludes e.message "timeout" = false →
      (strIncludes e.message "selector" || strIncludes e.message "not found") = false →
      (strIncludes e.message "network" || strIncludes e.message "connection") = true →
      (mapErrorToChatBotError e).type = ErrorType.NETWORK_ERROR) ∧
    (∀ e : JsError, strIncludes e.message "timeout" = false →
      (strIncludes e.message "selector" || strIncludes e.message "not found") = false →
      (strIncludes e.message "network" || strIncludes e.message "connection") = false →
      (strIncludes e.message "session" || strIncludes e.message "login") = true →
      (mapErrorToChatBotError e).type = ErrorType.SESSION_INVALID) ∧
    (∀ e : JsError, strIncludes e.message "timeout" = false →
      (strIncludes e.message "selector" || strIncludes e.message "not found") = false →
      (strIncludes e.message "network" || strIncludes e.message "connection") = false →
      (strIncludes e.message "session" || strIncludes e.message "login") = false →
      (mapErrorToChatBotError e).type = ErrorType.UNKNOWN_ERROR ∧
      (mapErrorToChatBotError e).message = e.message) ∧
    (∀ e₁ e₂ : JsError, e₁.message = e₂.message →
      (mapErrorToChatBotError e₁).type = (mapErrorToChatBotError e₂).type) ∧
    (mapErrorToChatBotError { message := "connection refused" }).type
      = ErrorType.NETWORK_ERROR ∧
    (mapErrorToChatBotError { message := "selector not found: X" }).type
      = ErrorType.SELECTOR_NOT_FOUND ∧
    (mapErrorToChatBotError { message := "session expired, please log in" }).type
      = ErrorType.SESSION_INVALID ∧
    (mapErrorToChatBotError { message := "timed out after 30000ms" }).type
      = ErrorType.UNKNOWN_ERROR := by
  refine ⟨?_, ?_, ?_, ?_, ?_, ?_, by decide, by decide, by decide, by decide⟩
  · intro e h
    simp [mapErrorToChatBotError, createError, h]
  · intro e h1 h2
    simp [mapErrorToChatBotError, createError, h1, h2]
  · intro e h1 h2 h3
    simp [mapErrorToChatBotError, createError, h1, h2, h3]
  · intro e h1 h2 h3 h4
    simp [mapErrorToChatBotError, createError, h1, h2, h3, h4]
  · intro e h1 h2 h3 h4
    simp [mapErrorToChatBotError, createError, h1, h2, h3, h4]
  · intro e1 e2 h
    simp only [mapErrorToChatBotError, h]
    repeat' split
    all_goals rfl

/-- Witness for `c5_error_classification` at a concrete input. -/
theorem c5_witness :
    (mapErrorToChatBotError { message := "upstream timeout" }).type
      = ErrorType.TIMEOUT_ERROR :=
  c5_error_classification.1 { message := "upstream timeout" } (by decide)

/-! ## C6: retryability and recoverability -/

/-- C6 (corrected): retryability is not a function of the classified kind.
`"Empty response received"` classifies as `UNKNOWN_ERROR`, yet
`isRetryableError` returns `false` for it, contradicting the claim that
all UNKNOWN-kind errors are retryable. -/
theorem c6_unknown_not_retryable_counterexample :
    (mapErrorToChatBotError { message := "Empty response received" }).type
      = ErrorType.UNKNOWN_ERROR ∧
    isRetryableError { message := "Empty response received" } = false := by
  decide

/-- C6 (amended): the `recoverable` flag attached by `createError` is
false exactly for SESSION_INVALID; the retry predicate, however, tests the
raw error text against the fixed pattern list independently of the
classified kind — `"connection refused"` (NETWORK) is retryable and
`"session expired, please log in"` (SESSION_INVALID) is not, but
`"Empty response received"` (UNKNOWN) and
`"None of the selectors found: #input"` (LOCATOR_NOT_FOUND) are not
retryable, while `"Timeout during login"` (SESSION_INVALID) is. -/
theorem c6_retryability :
    (∀ (t : ErrorType) (m : String) (d : Option String),
      ((createError t m d).recoverable = true ↔ t ≠ ErrorType.SESSION_INVALID)) ∧
    isRetryableError { message := "connection refused" } = true ∧
    isRetryableError { message := "session expired, please log in" } = false ∧
    ((mapErrorToChatBotError { message := "Empty response received" }).type
        = ErrorType.UNKNOWN_ERROR ∧
      isRetryableError { message := "Empty response received" } = false) ∧
    ((mapErrorToChatBotError { message := "None of the selectors found: #input" }).type
        = ErrorType.SELECTOR_NOT_FOUND ∧
      isRetryableError { message := "None of the selectors found: #input" } = false) ∧
    ((mapErrorToChatBotError { message := "Timeout during login" }).type
        = ErrorType.SESSION_INVALID ∧
      isRetryableError { message := "Timeout during login" } = true) := by
  refine ⟨?_, by decide, by decide, by decide, by decide, by decide⟩
  intro t m d
  simp [createError]

/-- Witness for `c6_retryability` at a concrete input. -/
theorem c6_witness :
    (createError ErrorType.NETWORK_ERROR "x" none).recoverable = true :=
  (c6_retryability.1 ErrorType.NETWORK_ERROR "x" none).mpr (by decide)

/-! ## Retry executor lemmas -/

/-- If the current attempt succeeds, the loop stops at once. -/
theorem withRetryGo_ok (op : Nat → Except JsError α) (cond : JsError → Bool)
    (bm md : Rat) {attempt : Nat} {v : α} (h : op attempt = .ok v) :
    ∀ (fuel : Nat) (cur : Rat) (waits : List Rat),
      withRetryGo op cond bm md fuel attempt cur waits = (.ok v, waits, attempt + 1) := by
  intro fuel cur waits
  cases fuel <;> simp [withRetryGo, h]

/-- If the current attempt fails and the predicate rejects the error, the
loop stops at once regardless of remaining fuel. -/
theorem withRetryGo_stopFalse (op : Nat → Except JsError α) (cond : JsError → Bool)
    (bm md : Rat) {attempt : Nat} {e : JsError}
    (hop : op attempt = .error e) (hcond : cond e = false) :
    ∀ (fuel : Nat) (cur : Rat) (waits : List Rat),
      withRetryGo op cond bm md fuel attempt cur waits = (.error e, waits, attempt + 1) := by
  intro fuel cur waits
  cases fuel <;> simp [withRetryGo, hop, hcond]

/-- Against an operation failing retryably on every attempt, the loop
exhausts its fuel, surfacing the last error after one attempt per unit of
fuel plus one, with the iterated backoff schedule as waits. -/
theorem withRetryGo_allFail (op : Nat → Except JsError α) (cond : JsError → Bool)
    (bm md : Rat) (es : Nat → JsError)
    (hop : ∀ i, op i = .error (es i)) (hcond : ∀ i, cond (es i) = true) :
    ∀ (fuel attempt : Nat) (cur : Rat) (waits : List Rat),
      withRetryGo op cond bm md fuel attempt cur waits =
        (.error (es (attempt + fuel)),
          waits ++ (List.range fuel).map (delayIter bm md cur), attempt + fuel + 1) := by
  intro fuel
  induction fuel with
  | zero =>
    intro attempt cur waits
    simp [withRetryGo, hop attempt]
  | succ f ih =>
    intro attempt cur waits
    simp only [withRetryGo, hop attempt, hcond attempt, if_true]
    rw [ih (attempt + 1) (nextDelay bm md cur) (waits ++ [cur])]
    refine congrArg₂ _ (congrArg _ (congrArg es (by omega))) (congrArg₂ _ ?_ (by omega))
    rw [List.range_succ_eq_map, List.map_cons, List.map_map, List.append_assoc,
      List.singleton_append]
    rfl

/-- If the predicate first rejects at the error of attempt `j` and fuel
suffices, the loop stops right after attempt `j`. -/
theorem withRetryGo_stopAt (op : Nat → Except JsError α) (cond : JsError → Bool)
    (bm md : Rat) (es : Nat → JsError) (hop : ∀ i, op i = .error (es i)) :
    ∀ (j fuel attempt : Nat) (cur : Rat) (waits : List Rat),
      (∀ i, attempt ≤ i → i < attempt + j → cond (es i) = true) →
      cond (es (attempt + j)) = false → j ≤ fuel →
      withRetryGo op cond bm md fuel attempt cur waits =
        (.error (es (attempt + j)),
          waits ++ (List.range j).map (delayIter bm md cur), attempt + j + 1) := by
  intro j
  induction j with
  | zero =>
    intro fuel attempt cur waits _ hfalse _
    simpa using withRetryGo_stopFalse op cond bm md (hop attempt)
      (by simpa using hfalse) fuel cur waits
  | succ n ih =>
    intro fuel attempt cur waits htrue hfalse hle
    obtain ⟨f, rfl⟩ : ∃ f, fuel = f + 1 := ⟨fuel - 1, by omega⟩
    have hct : cond (es attempt) = true := htrue attempt le_rfl (by omega)
    simp only [withRetryGo, hop attempt, hct, if_true]
    rw [ih f (attempt + 1) (nextDelay bm md cur) (waits ++ [cur])
      (fun i h1 h2 => htrue i (by omega) (by omega))
      (by rw [show attempt + 1 + n = attempt + (n + 1) from by omega]; exact hfalse)
      (by omega)]
    refine congrArg₂ _ (congrArg _ (congrArg es (by omega))) (congrArg₂ _ ?_ (by omega))
    rw [List.range_succ_eq_map, List.map_cons, List.map_map, List.append_assoc,
      List.singleton_append]
    rfl

/-- Under `base ≤ maxDelay` and a backoff factor of at least 1, the
iterated backoff equals the capped closed form
`min (base * factor ^ k) maxDelay`. -/
theorem delayIter_min (bm md : Rat) (h0 : 0 ≤ md) (hb : 1 ≤ bm) :
    ∀ (k : Nat) (cur : Rat), cur ≤ md →
      delayIter bm md cur k = min (cur * bm ^ k) md := by
  intro k
  induction k with
  | zero =>
    intro cur hc
    simp [delayIter, min_eq_left hc]
  | succ n ih =>
    intro cur hc
    rw [show delayIter bm md cur (n + 1) = delayIter bm md (nextDelay bm md cur) n from rfl]
    rw [ih (nextDelay bm md cur) (min_le_right _ _)]
    unfold nextDelay
    rcases le_total (cur * bm) md with h | h
    · rw [min_eq_left h]
      congr 1
      rw [pow_succ]
      ring
    · have hbk : (1 : Rat) ≤ bm ^ n := one_le_pow₀ hb
      have h1 : md ≤ md * bm ^ n := le_mul_of_one_le_right h0 hbk
      have h2 : md ≤ cur * bm ^ (n + 1) := by
        have hcb : (0 : Rat) ≤ cur * bm := le_trans h0 h
        calc md ≤ cur * bm := h
          _ ≤ cur * bm * bm ^ n := le_mul_of_one_le_right hcb hbk
          _ = cur * bm ^ (n + 1) := by rw [pow_succ]; ring
      rw [min_eq_right h, min_eq_right h1, min_eq_right h2]

/-! ## C4: retry executor -/

/-- C4 (corrected): the wait before attempt 1 is the uncapped base delay,
not `min(baseDelay * backoffFactor^0, maxDelay)`.  With base delay 20000
and max delay 10000 (maxAttempts 2 = maxRetries 1) against an
always-failing retryable operation, the executor waits 20000 before
attempt 1, while the claimed formula gives 10000. -/
theorem c4_uncapped_first_delay_counterexample :
    withRetryRun cAlwaysNetFail isRetryableError 1 20000 2 10000
      = (.error cNetErr, [20000], 2) ∧
    (20000 : Rat) ≠ min (20000 * 2 ^ (0 : Nat)) 10000 := by
  constructor
  · unfold withRetryRun
    rw [withRetryGo_allFail cAlwaysNetFail isRetryableError 2 10000 (fun _ => cNetErr)
      (fun _ => rfl) (fun _ => (by decide : isRetryableError cNetErr = true)) 1 0 20000 []]
    rfl
  · rw [pow_zero, mul_one, min_eq_right (by norm_num : (10000 : Rat) ≤ 20000)]
    norm_num

/-- C4 (amended): attempt 0 runs immediately; the wait before attempt 1 is
the base delay itself (uncapped) and the wait before each later attempt is
`min(previousWait * backoffFactor, maxDelay)` (`delayIter`); after a
failure the executor stops and surfaces that error exactly when the retry
budget is exhausted or the retry predicate returns false, the first false
predicate stopping it immediately even if attempts remain; whenever
`baseDelay ≤ maxDelay` and `backoffFactor ≥ 1` the iterated schedule
agrees with the closed form `min(baseDelay * backoffFactor^(attempt-1),
maxDelay)`; with maxAttempts 3 (= maxRetries 2), baseDelay 100,
backoffFactor 2, maxDelay 1000 against an always-failing retryable
operation it performs exactly 3 attempts with waits `[100, 200]` after the
immediate attempt 0 before surfacing the final error. -/
theorem c4_retry_schedule :
    (withRetryRun cAlwaysNetFail isRetryableError 2 100 2 1000
      = (.error cNetErr, [100, 200], 3)) ∧
    (∀ (α : Type) (op : Nat → Except JsError α) (cond : JsError → Bool)
      (es : Nat → JsError) (mr : Nat) (d bm md : Rat),
      (∀ i, op i = .error (es i)) → (∀ i, cond (es i) = true) →
      withRetryRun op cond mr d bm md
        = (.error (es mr), (List.range mr).map (delayIter bm md d), mr + 1)) ∧
    (∀ (α : Type) (op : Nat → Except JsError α) (cond : JsError → Bool)
      (es : Nat → JsError) (mr : Nat) (d bm md : Rat) (j : Nat),
      (∀ i, op i = .error (es i)) → (∀ i, i < j → cond (es i) = true) →
      cond (es j) = false → j ≤ mr →
      withRetryRun op cond mr d bm md
        = (.error (es j), (List.range j).map (delayIter bm md d), j + 1)) ∧
    (∀ (d bm md : Rat) (k : Nat), 0 ≤ md → d ≤ md → 1 ≤ bm →
      delayIter bm md d k = min (d * bm ^ k) md) := by
  refine ⟨?_, ?_, ?_, ?_⟩
  · unfold withRetryRun
    rw [withRetryGo_allFail cAlwaysNetFail isRetryableError 2 1000 (fun _ => cNetErr)
      (fun _ => rfl) (fun _ => (by decide : isRetryableError cNetErr = true)) 2 0 100 []]
    have h1 : (List.range 2).map (delayIter 2 1000 100)
        = [delayIter 2 1000 100 0, delayIter 2 1000 100 1] := rfl
    have h3 : delayIter (2 : Rat) 1000 100 1 = 200 := by
      show nextDelay 2 1000 100 = 200
      unfold nextDelay
      rw [min_eq_left (by norm_num)]
      norm_num
    rw [h1, h3]
    rfl
  · intro α op cond es mr d bm md hop hcond
    unfold withRetryRun
    rw [withRetryGo_allFail op cond bm md es hop hcond mr 0 d []]
    simp
  · intro α op cond es mr d bm md j hop htrue hfalse hle
    unfold withRetryRun
    rw [withRetryGo_stopAt op cond bm md es hop j mr 0 d []
      (fun i _ h2 => htrue i (by omega)) (by simpa using hfalse) hle]
    simp
  · intro d bm md k h0 hd hb
    exact delayIter_min bm md h0 hb k d hd

/-- Witness for `c4_retry_schedule` at a concrete input: the first
non-retryable error stops the executor after one attempt. -/
theorem c4_witness :
    withRetryRun cAlwaysSessFail isRetryableError 5 100 2 1000
      = (.error cSessErr, [], 1) := by
  have h := c4_retry_schedule.2.2.1 Unit cAlwaysSessFail isRetryableError
    (fun _ => cSessErr) 5 100 2 1000 0 (fun _ => rfl)
    (fun i hi => absurd hi (Nat.not_lt_zero i)) (by decide) (Nat.zero_le 5)
  simpa using h

/-! ## Element resolver lemmas -/

/-- The probe loop returns exactly the first selector whose element
appears within the per-selector share. -/
theorem findElementGo_fst (env : String → Option Rat) (share : Rat) :
    ∀ (l : List String) (elapsed : Rat),
      (findElementGo env share l elapsed).1 = firstResolving env share l := by
  intro l
  induction l with
  | nil => intro elapsed; rfl
  | cons s rest ih =>
    intro elapsed
    simp only [findElementGo, firstResolving, List.find?]
    cases henv : env s with
    | none =>
      simpa [firstResolving] using ih (elapsed + share)
    | some t =>
      by_cases ht : t ≤ share
      · simp [ht]
      · simpa [ht, firstResolving] using ih (elapsed + share)

/-- The probe loop spends at most one share per candidate selector. -/
theorem findElementGo_elapsed (env : String → Option Rat) (share : Rat)
    (hsh : 0 ≤ share) :
    ∀ (l : List String) (elapsed : Rat),
      (findElementGo env share l elapsed).2 ≤ elapsed + (l.length : Rat) * share := by
  intro l
  induction l with
  | nil => intro elapsed; simp [findElementGo]
  | cons s rest ih =>
    intro elapsed
    have hlen : (0 : Rat) ≤ (rest.length : Rat) * share :=
      mul_nonneg (Nat.cast_nonneg _) hsh
    simp only [findElementGo, List.length_cons]
    cases henv : env s with
    | none =>
      refine (ih (elapsed + share)).trans ?_
      push_cast
      linarith
    | some t =>
      by_cases ht : t ≤ share
      · simp only [ht, if_true]
        push_cast
        linarith
      · simp only [ht, if_false]
        refine (ih (elapsed + share)).trans ?_
        push_cast
        linarith

/-- C7: element resolution probes the candidates in order with an equal
share `totalTimeout / count` of the budget, returns the first locator that
resolves within its share, fails otherwise with the locator-not-found
error carrying the joined list of all attempted locators, and never
spends more than the caller's total timeout. -/
theorem c7_element_resolution (env : String → Option Rat) (selectors : List String)
    (timeout : Rat) (hne : selectors ≠ []) (hto : 0 ≤ timeout) :
    (∀ s, firstResolving env (timeout / (selectors.length : Rat)) selectors = some s →
      (findElement env selectors timeout).1 = .ok s) ∧
    (firstResolving env (timeout / (selectors.length : Rat)) selectors = none →
      (findElement env selectors timeout).1
        = .error ("None of the selectors found: " ++ String.intercalate ", " selectors)) ∧
    (findElement env selectors timeout).2 ≤ timeout := by
  have hn : (0 : Rat) < (selectors.length : Rat) := by
    exact_mod_cast List.length_pos.mpr hne
  have hsh : 0 ≤ timeout / (selectors.length : Rat) := div_nonneg hto hn.le
  have hfst := findElementGo_fst env (timeout / (selectors.length : Rat)) selectors 0
  refine ⟨?_, ?_, ?_⟩
  · intro s hs
    unfold findElement
    rcases hgo : findElementGo env (timeout / (selectors.length : Rat)) selectors 0
      with ⟨r, el⟩
    rw [hgo] at hfst
    simp only at hfst
    rw [← hfst] at hs
    subst hs
    rfl
  · intro hs
    unfold findElement
    rcases hgo : findElementGo env (timeout / (selectors.length : Rat)) selectors 0
      with ⟨r, el⟩
    rw [hgo] at hfst
    simp only at hfst
    rw [← hfst] at hs
    subst hs
    rfl
  · have hel := findElementGo_elapsed env (timeout / (selectors.length : Rat)) hsh
      selectors 0
    have hcancel : (selectors.length : Rat) * (timeout / (selectors.length : Rat))
        = timeout := by
      rw [mul_comm]
      exact div_mul_cancel₀ timeout hn.ne'
    have hbound : (findElementGo env (timeout / (selectors.length : Rat)) selectors 0).2
        ≤ timeout := by
      rw [zero_add, hcancel] at hel
      exact hel
    unfold findElement
    rcases hgo : findElementGo env (timeout / (selectors.length : Rat)) selectors 0
      with ⟨r, el⟩
    rw [hgo] at hbound
    cases r <;> simpa using hbound

/-- Witness for `c7_element_resolution` at a concrete input: with
candidates A, B, C, a 300ms budget and only C resolving (50ms into its
share), the resolver returns C without exceeding the budget. -/
theorem c7_witness :
    (findElement cEnvC ["A", "B", "C"] 300).1 = .ok "C" ∧
    (findElement cEnvC ["A", "B", "C"] 300).2 ≤ 300 := by
  have h := c7_element_resolution cEnvC ["A", "B", "C"] 300 (by decide) (by norm_num)
  refine ⟨h.1 "C" ?_, h.2.2⟩
  show List.find? _ _ = _
  have hA : cEnvC "A" = none := rfl
  have hB : cEnvC "B" = none := rfl
  have hC : cEnvC "C" = some 50 := rfl
  simp only [List.find?, hA, hB, hC]
  norm_num

/-! ## Per-agent submission lemmas -/

/-- One failing retryable attempt advances the loop. -/
theorem withRetryGo_stepError (op : Nat → Except JsError α) (cond : JsError → Bool)
    (bm md : Rat) {attempt : Nat} {e : JsError}
    (hop : op attempt = .error e) (hcond : cond e = true)
    (f : Nat) (cur : Rat) (waits : List Rat) :
    withRetryGo op cond bm md (f + 1) attempt cur waits
      = withRetryGo op cond bm md f (attempt + 1) (nextDelay bm md cur) (waits ++ [cur]) := by
  simp [withRetryGo, hop, hcond]

/-- A value surfaced by the retry loop was produced by some attempt of the
underlying operation. -/
theorem withRetryGo_ok_src (op : Nat → Except JsError α) (cond : JsError → Bool)
    (bm md : Rat) :
    ∀ (fuel attempt : Nat) (cur : Rat) (waits : List Rat) (v : α),
      (withRetryGo op cond bm md fuel attempt cur waits).1 = .ok v →
      ∃ k, op k = .ok v := by
  intro fuel
  induction fuel with
  | zero =>
    intro attempt cur waits v h
    cases hop : op attempt with
    | ok w =>
      simp only [withRetryGo, hop] at h
      exact ⟨attempt, by rw [hop]; simpa using h⟩
    | error e => simp [withRetryGo, hop] at h
  | succ f ih =>
    intro attempt cur waits v h
    cases hop : op attempt with
    | ok w =>
      simp only [withRetryGo, hop] at h
      exact ⟨attempt, by rw [hop]; simpa using h⟩
    | error e =>
      by_cases hc : cond e = true
      · simp only [withRetryGo, hop, hc, if_true] at h
        exact ih (attempt + 1) (nextDelay bm md cur) (waits ++ [cur]) v h
      · have hc' : cond e = false := by simpa using hc
        simp [withRetryGo, hop, hc'] at h

/-- A successful internal attempt is an extraction that passed the
empty-response check. -/
theorem sendPromptInternalM_ok (attempt : Except JsError String) (v : String)
    (h : sendPromptInternalM attempt = .ok v) :
    attempt = .ok v ∧ (v == "" || strTrim v == "") = false := by
  cases hat : attempt with
  | error e => rw [hat] at h; simp [sendPromptInternalM] at h
  | ok s =>
    rw [hat] at h
    by_cases hc : (s == "" || strTrim s == "") = true
    · simp [sendPromptInternalM, hc] at h
    · have hc' : (s == "" || strTrim s == "") = false := by simpa using hc
      simp only [sendPromptInternalM, hc', Bool.false_eq_true, if_false] at h
      have hv : s = v := by simpa using h
      subst hv
      exact ⟨rfl, hc'⟩

/-! ## C8: empty extraction is an error outcome -/

/-- C8: a success outcome never carries an empty or whitespace-only
response, and an attempt whose extraction is whitespace-only surfaces the
non-retryable `Empty response received` failure, classified UNKNOWN, as an
error outcome. -/
theorem c8_empty_response :
    (∀ (a : Agent) (attempts : Nat → Except JsError String) (mr : Nat),
      (sendPromptM a attempts mr).status = Status.success →
      ¬(strTrim (sendPromptM a attempts mr).response = "")) ∧
    (∀ (a : Agent) (attempts : Nat → Except JsError String) (mr : Nat) (s : String),
      attempts 0 = .ok s → strTrim s = "" →
      (sendPromptM a attempts mr).status = Status.error ∧
      (sendPromptM a attempts mr).error
        = some { type := ErrorType.UNKNOWN_ERROR, message := "Empty response received",
                 details := none, recoverable := true } ∧
      (sendPromptM a attempts mr).response = "") := by
  constructor
  · intro a attempts mr hst
    cases hr : (sendPromptRun attempts mr).1 with
    | error e => simp [sendPromptM, hr] at hst
    | ok v =>
      obtain ⟨k, hk⟩ := withRetryGo_ok_src (fun k => sendPromptInternalM (attempts k))
        isRetryableError (3 / 2) 10000 mr 0 RETRY_DELAY [] v hr
      obtain ⟨-, hchk⟩ := sendPromptInternalM_ok (attempts k) v hk
      have hresp : (sendPromptM a attempts mr).response = v := by
        simp [sendPromptM, hr]
      rw [hresp]
      intro hemp
      simp [hemp] at hchk
  · intro a attempts mr s h0 htrim
    have hint : sendPromptInternalM (attempts 0)
        = .error { message := "Empty response received", name := "Error", stack := none } := by
      have hcond : (s == "" || strTrim s == "") = true := by simp [htrim]
      rw [h0]
      simp [sendPromptInternalM, hcond]
    have hrun : (sendPromptRun attempts mr).1
        = .error { message := "Empty response received", name := "Error", stack := none } := by
      unfold sendPromptRun withRetryRun
      rw [withRetryGo_stopFalse (fun k => sendPromptInternalM (attempts k))
        isRetryableError (3 / 2) 10000 hint (by decide) mr RETRY_DELAY []]
    have hmap : mapErrorToChatBotError
        { message := "Empty response received", name := "Error", stack := none }
        = { type := ErrorType.UNKNOWN_ERROR, message := "Empty response received",
            details := none, recoverable := true } := by decide
    refine ⟨?_, ?_, ?_⟩ <;> simp [sendPromptM, hrun, hmap]

/-- Witness for `c8_empty_response` at a concrete input: extracting
`"   "` yields the UNKNOWN empty-response error outcome. -/
theorem c8_witness :
    (sendPromptM cAgentClaude cAttemptsWs 3).status = Status.error ∧
    (sendPromptM cAgentClaude cAttemptsWs 3).error
      = some { type := ErrorType.UNKNOWN_ERROR, message := "Empty response received",
               details := none, recoverable := true } ∧
    (sendPromptM cAgentClaude cAttemptsWs 3).response = "" :=
  c8_empty_response.2 cAgentClaude cAttemptsWs 3 "   " rfl (by decide)

/-! ## C9: retry count reporting -/

/-- C9 (corrected): an agent that succeeds on its first attempt reports
`retryCount = 1`, not 0 — the counter is incremented at the start of every
attempt, so it counts attempts, not retries. -/
theorem c9_first_attempt_counterexample :
    (sendPromptM cAgentClaude cAttemptsHello 3).metadata
      = some { responseTime := 0, retryCount := 1, sessionValid := true } ∧
    (1 : Nat) ≠ 0 := by
  exact ⟨rfl, by decide⟩

/-- C9 (amended): the reported `retryCount` equals the number of attempts
actually made (one more than the number of retries): first-attempt success
reports 1; two retryable failures followed by a successful third attempt
report 3; in general the reported count is the attempt count of the retry
run. -/
theorem c9_retry_count :
    (∀ (a : Agent) (attempts : Nat → Except JsError String) (mr : Nat) (s : String),
      attempts 0 = .ok s → (s == "" || strTrim s == "") = false →
      (sendPromptM a attempts mr).status = Status.success ∧
      (sendPromptM a attempts mr).metadata
        = some { responseTime := 0, retryCount := 1, sessionValid := true }) ∧
    (∀ (a : Agent) (attempts : Nat → Except JsError String) (mr : Nat)
      (e0 e1 : JsError) (s : String),
      attempts 0 = .error e0 → attempts 1 = .error e1 → attempts 2 = .ok s →
      (s == "" || strTrim s == "") = false →
      isRetryableError e0 = true → isRetryableError e1 = true → 2 ≤ mr →
      (sendPromptM a attempts mr).status = Status.success ∧
      (sendPromptM a attempts mr).metadata
        = some { responseTime := 0, retryCount := 3, sessionValid := true }) ∧
    (∀ (a : Agent) (attempts : Nat → Except JsError String) (mr : Nat),
      (sendPromptM a attempts mr).metadata.map ResponseMetadata.retryCount
        = some (sendPromptRun attempts mr).2.2) := by
  refine ⟨?_, ?_, ?_⟩
  · intro a attempts mr s h0 hchk
    have hint : sendPromptInternalM (attempts 0) = .ok s := by
      rw [h0]
      simp [sendPromptInternalM, hchk]
    have hrun : sendPromptRun attempts mr = (.ok s, [], 1) := by
      unfold sendPromptRun withRetryRun
      rw [withRetryGo_ok (fun k => sendPromptInternalM (attempts k))
        isRetryableError (3 / 2) 10000 hint mr RETRY_DELAY []]
    constructor <;> simp [sendPromptM, hrun]
  · intro a attempts mr e0 e1 s h0 h1 h2 hchk hc0 hc1 hmr
    obtain ⟨m, rfl⟩ : ∃ m, mr = m + 2 := ⟨mr - 2, by omega⟩
    have hint0 : sendPromptInternalM (attempts 0) = .error e0 := by rw [h0]; rfl
    have hint1 : sendPromptInternalM (attempts 1) = .error e1 := by rw [h1]; rfl
    have hint2 : sendPromptInternalM (attempts 2) = .ok s := by
      rw [h2]
      simp [sendPromptInternalM, hchk]
    have hrun : (sendPromptRun attempts (m + 2)).1 = .ok s ∧
        (sendPromptRun attempts (m + 2)).2.2 = 3 := by
      unfold sendPromptRun withRetryRun
      rw [show m + 2 = (m + 1) + 1 from rfl,
        withRetryGo_stepError (fun k => sendPromptInternalM (attempts k))
          isRetryableError (3 / 2) 10000 hint0 hc0 (m + 1) RETRY_DELAY [],
        withRetryGo_stepError (fun k => sendPromptInternalM (attempts k))
          isRetryableError (3 / 2) 10000 hint1 hc1 m
          (nextDelay (3 / 2) 10000 RETRY_DELAY) ([] ++ [RETRY_DELAY]),
        withRetryGo_ok (fun k => sendPromptInternalM (attempts k))
          isRetryableError (3 / 2) 10000 hint2 m _ _]
      exact ⟨rfl, rfl⟩
    constructor <;> simp [sendPromptM, hrun.1, hrun.2]
  · intro a attempts mr
    cases hr : (sendPromptRun attempts mr).1 <;> simp [sendPromptM, hr]

/-- Witness for `c9_retry_count` at a concrete input: first-attempt
success reports an attempt count of 1. -/
theorem c9_witness :
    (sendPromptM cAgentClaude cAttemptsHello 3).status = Status.success ∧
    (sendPromptM cAgentClaude cAttemptsHello 3).metadata
      = some { responseTime := 0, retryCount := 1, sessionValid := true } :=
  c9_retry_count.1 cAgentClaude cAttemptsHello 3 "hello" rfl (by decide)

/-! ## Orchestrator lemmas -/

/-- `sendPrompt` always stamps the bot's own id on the outcome. -/
theorem sendPromptM_id (a : Agent) (attempts : Nat → Except JsError String)
    (mr : Nat) : (sendPromptM a attempts mr).id = a.id := by
  cases hr : (sendPromptRun attempts mr).1 <;> simp [sendPromptM, hr]

/-- The classifier never produces the manager's initialization-failure
signature (`NETWORK_ERROR` with message `Failed to initialize`). -/
theorem mapError_not_initFailure (e : JsError) :
    ((mapErrorToChatBotError e).type == ErrorType.NETWORK_ERROR &&
      (mapErrorToChatBotError e).message == "Failed to initialize") = false := by
  unfold mapErrorToChatBotError
  repeat' split
  all_goals simp [createError]

/-- A `sendPrompt` outcome is never an initialization-failure outcome. -/
theorem sendPromptM_not_initFailure (a : Agent) (attempts : Nat → Except JsError String)
    (mr : Nat) : isInitFailureOutcome (sendPromptM a attempts mr) = false := by
  cases hr : (sendPromptRun attempts mr).1 with
  | ok v => simp [sendPromptM, hr, isInitFailureOutcome]
  | error e =>
    simp only [sendPromptM, hr, isInitFailureOutcome]
    simpa using mapError_not_initFailure e

/-- The rejected-prompt outcome is never an initialization-failure
outcome (it is tagged `UNKNOWN_ERROR`). -/
theorem rejectedOutcome_not_initFailure (a : Agent) (e : JsError) :
    isInitFailureOutcome (rejectedOutcome a e) = false := rfl

/-- The initialization-failure outcome carries its signature. -/
theorem initFailOutcomeOf_isInitFailure (initRes : Agent → Except JsError Unit)
    (a : Agent) : isInitFailureOutcome (initFailOutcomeOf initRes a) = true := rfl

/-- Under the guarantee that fulfilled prompt values are `sendPrompt`
outcomes, every recorded prompt outcome keeps the agent's id. -/
theorem promptOutcomeOf_id (promptRes : Agent → SettledResult)
    (hful : ∀ a r, promptRes a = .fulfilled r →
      ∃ attempts mr, r = sendPromptM a attempts mr) (a : Agent) :
    (promptOutcomeOf promptRes a).id = a.id := by
  unfold promptOutcomeOf
  cases hp : promptRes a with
  | fulfilled r =>
    obtain ⟨attempts, mr, rfl⟩ := hful a r hp
    exact sendPromptM_id a attempts mr
  | rejected e => rfl

/-- Recorded prompt outcomes are never initialization-failure outcomes. -/
theorem promptOutcomeOf_not_initFailure (promptRes : Agent → SettledResult)
    (hful : ∀ a r, promptRes a = .fulfilled r →
      ∃ attempts mr, r = sendPromptM a attempts mr) (a : Agent) :
    isInitFailureOutcome (promptOutcomeOf promptRes a) = false := by
  unfold promptOutcomeOf
  cases hp : promptRes a with
  | fulfilled r =>
    obtain ⟨attempts, mr, rfl⟩ := hful a r hp
    exact sendPromptM_not_initFailure a attempts mr
  | rejected e => rfl

/-- A run whose selection is non-empty and has at least one successful
initialization produces an aggregate whose results are the prompt
outcomes of the successfully initialized agents (in registry-filtered
order) followed by the initialization-failure outcomes (same order). -/
theorem sendPromptToAllM_results (registry : List Agent) (requested : List String)
    (initRes : Agent → Except JsError Unit) (promptRes : Agent → SettledResult)
    (h2 : (selectedOf registry requested).filter (initOkB initRes) ≠ []) :
    isOkE (sendPromptToAllM registry requested initRes promptRes) = true ∧
    resultsOf (sendPromptToAllM registry requested initRes promptRes)
      = ((selectedOf registry requested).filter (initOkB initRes)).map
          (promptOutcomeOf promptRes)
        ++ ((selectedOf registry requested).filter
            fun a => !(initOkB initRes a)).map (initFailOutcomeOf initRes) := by
  have h1 : selectedOf registry requested ≠ [] := by
    intro hemp
    exact h2 (by simp [hemp])
  have e1 : (selectedOf registry requested).isEmpty = false :=
    List.isEmpty_eq_false.mpr h1
  have e2 : ((selectedOf registry requested).filter (initOkB initRes)).isEmpty = false :=
    List.isEmpty_eq_false.mpr h2
  constructor <;> simp [sendPromptToAllM, e1, e2, isOkE, resultsOf]

/-- The ids of an aggregate's results are the ids of the successfully
initialized selected agents followed by those of the agents that failed
initialization. -/
theorem resultIds_split (registry : List Agent) (requested : List String)
    (initRes : Agent → Except JsError Unit) (promptRes : Agent → SettledResult)
    (hful : ∀ a r, promptRes a = .fulfilled r →
      ∃ attempts mr, r = sendPromptM a attempts mr)
    (h2 : (selectedOf registry requested).filter (initOkB initRes) ≠ []) :
    resultIds (sendPromptToAllM registry requested initRes promptRes)
      = ((selectedOf registry requested).filter (initOkB initRes)).map Agent.id
        ++ ((selectedOf registry requested).filter
            fun a => !(initOkB initRes a)).map Agent.id := by
  have hres := (sendPromptToAllM_results registry requested initRes promptRes h2).2
  have hids : resultIds (sendPromptToAllM registry requested initRes promptRes)
      = (resultsOf (sendPromptToAllM registry requested initRes promptRes)).map
          ChatBotResponse.id := by
    cases sendPromptToAllM registry requested initRes promptRes <;> rfl
  rw [hids, hres, List.map_append, List.map_map, List.map_map]
  congr 1
  exact List.map_congr_left fun a _ => promptOutcomeOf_id promptRes hful a

/-- `resultIds` is the id projection of `resultsOf`. -/
theorem resultIds_eq_map (x : Except String PromptResponse) :
    resultIds x = (resultsOf x).map ChatBotResponse.id := by
  cases x <;> rfl

/-! ## C1: no agent silently dropped -/

/-- C1: when every requested id names a registered agent and at least one
selected agent initializes (K < N), the run returns an aggregate with
exactly one outcome per requested id — `N` outcomes whose id set equals
the requested set, with no duplicates — and exactly `K` of them are
initialization-failure outcomes. -/
theorem c1_no_agent_dropped (registry : List Agent) (requested : List String)
    (initRes : Agent → Except JsError Unit) (promptRes : Agent → SettledResult)
    (hRegNodup : (registry.map Agent.id).Nodup)
    (hReqNodup : requested.Nodup)
    (hsub : ∀ r ∈ requested, r ∈ registry.map Agent.id)
    (hful : ∀ a r, promptRes a = .fulfilled r →
      ∃ attempts mr, r = sendPromptM a attempts mr)
    (hsome : (selectedOf registry requested).filter (initOkB initRes) ≠ []) :
    isOkE (sendPromptToAllM registry requested initRes promptRes) = true ∧
    (resultsOf (sendPromptToAllM registry requested initRes promptRes)).length
      = requested.length ∧
    (∀ x, x ∈ resultIds (sendPromptToAllM registry requested initRes promptRes)
      ↔ x ∈ requested) ∧
    (resultIds (sendPromptToAllM registry requested initRes promptRes)).Nodup ∧
    ((resultsOf (sendPromptToAllM registry requested initRes promptRes)).filter
        isInitFailureOutcome).length
      = ((selectedOf registry requested).filter
          fun a => !(initOkB initRes a)).length := by
  have hsplit := resultIds_split registry requested initRes promptRes hful hsome
  have hperm1 : List.Perm
      (resultIds (sendPromptToAllM registry requested initRes promptRes))
      ((selectedOf registry requested).map Agent.id) := by
    rw [hsplit, ← List.map_append]
    exact (List.filter_append_perm (initOkB initRes) (selectedOf registry requested)).map
      Agent.id
  have hselNodup : ((selectedOf registry requested).map Agent.id).Nodup :=
    hRegNodup.sublist ((List.filter_sublist registry).map Agent.id)
  have hmem : ∀ x, x ∈ (selectedOf registry requested).map Agent.id ↔ x ∈ requested := by
    intro x
    constructor
    · intro hx
      obtain ⟨a, ha, rfl⟩ := List.mem_map.mp hx
      have hc := (List.mem_filter.mp ha).2
      simpa using hc
    · intro hx
      obtain ⟨a, ha, haid⟩ := List.mem_map.mp (hsub x hx)
      refine List.mem_map.mpr ⟨a, List.mem_filter.mpr ⟨ha, ?_⟩, haid⟩
      subst haid
      simpa using hx
  have hpermReq : List.Perm
      (resultIds (sendPromptToAllM registry requested initRes promptRes))
      requested :=
    hperm1.trans ((List.perm_ext_iff_of_nodup hselNodup hReqNodup).mpr hmem)
  refine ⟨(sendPromptToAllM_results registry requested initRes promptRes hsome).1,
    ?_, fun x => hpermReq.mem_iff, hpermReq.nodup_iff.mpr hReqNodup, ?_⟩
  · have h := hpermReq.length_eq
    rwa [resultIds_eq_map, List.length_map] at h
  · rw [(sendPromptToAllM_results registry requested initRes promptRes hsome).2,
      List.filter_append]
    have hl : (((selectedOf registry requested).filter (initOkB initRes)).map
        (promptOutcomeOf promptRes)).filter isInitFailureOutcome = [] := by
      apply List.filter_eq_nil_iff.mpr
      intro r hr
      obtain ⟨a, -, rfl⟩ := List.mem_map.mp hr
      simp [promptOutcomeOf_not_initFailure promptRes hful a]
    have hr2 : (((selectedOf registry requested).filter
          fun a => !(initOkB initRes a)).map (initFailOutcomeOf initRes)).filter
          isInitFailureOutcome
        = ((selectedOf registry requested).filter
            fun a => !(initOkB initRes a)).map (initFailOutcomeOf initRes) := by
      apply List.filter_eq_self.mpr
      intro r hr
      obtain ⟨a, -, rfl⟩ := List.mem_map.mp hr
      simp [initFailOutcomeOf_isInitFailure]
    rw [hl, hr2]
    simp

/-- Witness for `c1_no_agent_dropped` at a concrete input: requesting
chatgpt (whose initialization fails) and claude (which succeeds). -/
theorem c1_witness :
    isOkE (sendPromptToAllM defaultRegistry ["chatgpt", "claude"]
      cInitFailChatgpt cPromptFulfilled) = true ∧
    (resultsOf (sendPromptToAllM defaultRegistry ["chatgpt", "claude"]
      cInitFailChatgpt cPromptFulfilled)).length
      = (["chatgpt", "claude"] : List String).length ∧
    (∀ x, x ∈ resultIds (sendPromptToAllM defaultRegistry ["chatgpt", "claude"]
      cInitFailChatgpt cPromptFulfilled) ↔ x ∈ (["chatgpt", "claude"] : List String)) ∧
    (resultIds (sendPromptToAllM defaultRegistry ["chatgpt", "claude"]
      cInitFailChatgpt cPromptFulfilled)).Nodup ∧
    ((resultsOf (sendPromptToAllM defaultRegistry ["chatgpt", "claude"]
        cInitFailChatgpt cPromptFulfilled)).filter isInitFailureOutcome).length
      = ((selectedOf defaultRegistry ["chatgpt", "claude"]).filter
          fun a => !(initOkB cInitFailChatgpt a)).length :=
  c1_no_agent_dropped defaultRegistry ["chatgpt", "claude"] cInitFailChatgpt
    cPromptFulfilled (by decide) (by decide) (by decide)
    (fun a r h => ⟨cAttemptsHello, 3, by
      simp only [cPromptFulfilled, SettledResult.fulfilled.injEq] at h
      exact h.symm⟩)
    (by decide)

/-! ## C2: output ordering -/

/-- C2 (corrected): initialization-failure outcomes do not occupy their
agent's original position — they are appended after all prompt outcomes.
Requesting chatgpt and claude with chatgpt failing initialization yields
the id order `[claude, chatgpt]`, not the request order
`[chatgpt, claude]`. -/
theorem c2_order_counterexample :
    resultIds (sendPromptToAllM defaultRegistry ["chatgpt", "claude"]
      cInitFailChatgpt cPromptRejectedBoom) = ["claude", "chatgpt"] ∧
    (["claude", "chatgpt"] : List String) ≠ ["chatgpt", "claude"] := by
  constructor
  · decide
  · decide

/-- C2 (amended): the aggregate's outcomes are deterministic and
independent of completion order, but their order is: the successfully
initialized agents first, in the manager's registry order restricted to
the requested set, followed by the initialization-failure outcomes in the
same registry order; when no agent fails initialization the outcomes are
exactly in registry-filtered order. -/
theorem c2_output_order (registry : List Agent) (requested : List String)
    (initRes : Agent → Except JsError Unit) (promptRes : Agent → SettledResult)
    (hful : ∀ a r, promptRes a = .fulfilled r →
      ∃ attempts mr, r = sendPromptM a attempts mr)
    (hsome : (selectedOf registry requested).filter (initOkB initRes) ≠ []) :
    resultIds (sendPromptToAllM registry requested initRes promptRes)
      = ((selectedOf registry requested).filter (initOkB initRes)).map Agent.id
        ++ ((selectedOf registry requested).filter
            fun a => !(initOkB initRes a)).map Agent.id ∧
    (((selectedOf registry requested).filter fun a => !(initOkB initRes a)) = [] →
      resultIds (sendPromptToAllM registry requested initRes promptRes)
        = (selectedOf registry requested).map Agent.id) := by
  have hsplit := resultIds_split registry requested initRes promptRes hful hsome
  refine ⟨hsplit, fun hnone => ?_⟩
  have hall : (selectedOf registry requested).filter (initOkB initRes)
      = selectedOf registry requested := by
    apply List.filter_eq_self.mpr
    intro a ha
    by_contra hbad
    have : a ∈ (selectedOf registry requested).filter
        fun a => !(initOkB initRes a) :=
      List.mem_filter.mpr ⟨ha, by simpa using hbad⟩
    simp [hnone] at this
  rw [hsplit, hnone, hall]
  simp

/-- Witness for `c2_output_order` at a concrete input. -/
theorem c2_witness :
    resultIds (sendPromptToAllM defaultRegistry ["chatgpt", "claude"]
      cInitFailChatgpt cPromptFulfilled) = ["claude", "chatgpt"] := by
  have h := (c2_output_order defaultRegistry ["chatgpt", "claude"] cInitFailChatgpt
    cPromptFulfilled
    (fun a r h => ⟨cAttemptsHello, 3, by
      simp only [cPromptFulfilled, SettledResult.fulfilled.injEq] at h
      exact h.symm⟩)
    (by decide)).1
  rw [h]
  decide

/-! ## C3: all initializations failing is fatal -/

/-- C3: when the selection is non-empty and every selected agent fails to
initialize, the run fails fatally with the single top-level
`All chatbots failed to initialize` error and produces no aggregate. -/
theorem c3_all_init_fail_fatal (registry : List Agent) (requested : List String)
    (initRes : Agent → Except JsError Unit) (promptRes : Agent → SettledResult)
    (h1 : selectedOf registry requested ≠ [])
    (h2 : (selectedOf registry requested).filter (initOkB initRes) = []) :
    sendPromptToAllM registry requested initRes promptRes
      = .error "All chatbots failed to initialize" := by
  have e1 : (selectedOf registry requested).isEmpty = false :=
    List.isEmpty_eq_false.mpr h1
  simp [sendPromptToAllM, e1, h2]

/-- Witness for `c3_all_init_fail_fatal` at a concrete input. -/
theorem c3_witness :
    sendPromptToAllM defaultRegistry ["chatgpt"] cInitFailAll cPromptRejectedBoom
      = .error "All chatbots failed to initialize" :=
  c3_all_init_fail_fatal defaultRegistry ["chatgpt"] cInitFailAll cPromptRejectedBoom
    (by decide) (by decide)

/-! ## C10: reported total duration -/

/-- C10 (corrected): the reported duration is computed after the cleanup
phase has been awaited — with a 10ms initialization phase, 20ms submission
phase and 5ms close phase the reported total is 35, not the 30 the claim
(initialization start to submission end) would give. -/
theorem c10_duration_counterexample :
    sendPromptToAllDurationM 0 10 20 5 = 35 ∧ (35 : Nat) ≠ 10 + 20 := by
  constructor
  · rfl
  · decide

/-- C10 (amended): the reported total duration spans from the start of
the initialization phase to the completion of the cleanup phase — it is
the sum of the initialization, submission and close extents, including
the close phase. -/
theorem c10_duration_includes_close (t0 dInit dPrompt dClose : Nat) :
    sendPromptToAllDurationM t0 dInit dPrompt dClose = dInit + dPrompt + dClose := by
  show t0 + dInit + dPrompt + dClose - t0 = dInit + dPrompt + dClose
  omega

/-- Witness for `c10_duration_includes_close` at a concrete input. -/
theorem c10_witness :
    sendPromptToAllDurationM 7 1 2 3 = 1 + 2 + 3 :=
  c10_duration_includes_close 7 1 2 3

end AiMultichat
